import Mathlib

/-!
# Verification of the rithmic-rs sender encoder and order-plant actor

Shallow embedding of `src/api/sender_api.rs` and `src/plants/order_plant.rs`:
the request builders (with their correlation-tag counter), the 4-byte
big-endian length framing, and the order-plant actor's command / inbound
message handling, modelled as pure state-passing functions emitting traces
of observable actions.

Schema-generated message structs (the `rti` module) are external to the
repository per its spec; they are embedded as one record of optional fields
(`ProtoMsg`), each builder setting exactly the fields the source sets.
-/

/-! ## Decimal rendering of machine integers

Models Rust's `u64::to_string` (external standard-library code): the usual
base-10 digit expansion.  `decDigitsAux` carries explicit fuel so that it is
structurally recursive and kernel-evaluable. -/

/-- Most-significant-first decimal digits of `n` (empty for `0`), with fuel. -/
def decDigitsAux : Nat → Nat → List Nat
  | 0, _ => []
  | fuel + 1, n => if n = 0 then [] else decDigitsAux fuel (n / 10) ++ [n % 10]

/-- Most-significant-first decimal digits of `n` (empty for `0`). -/
def decDigits (n : Nat) : List Nat := decDigitsAux n n

/-- Decimal string of a natural number, modelling `u64::to_string`. -/
def natToString (n : Nat) : String :=
  if n = 0 then "0" else String.mk ((decDigits n).map fun d => Char.ofNat (48 + d))

/-- Reading a decimal string back as a natural number. -/
def decVal (s : String) : Nat :=
  s.data.foldl (fun a c => 10 * a + (c.toNat - 48)) 0

theorem decDigitsAux_eq (fuel fuel' n : Nat) (h : n ≤ fuel) (h' : n ≤ fuel') :
    decDigitsAux fuel n = decDigitsAux fuel' n := by
  induction fuel generalizing fuel' n with
  | zero =>
    interval_cases n
    cases fuel' <;> simp [decDigitsAux]
  | succ f ih =>
    cases fuel' with
    | zero =>
      interval_cases n
      simp [decDigitsAux]
    | succ f' =>
      simp only [decDigitsAux]
      rcases Nat.eq_zero_or_pos n with h0 | h0
      · simp [h0]
      · have h0' : ¬ n = 0 := by omega
        have hd : n / 10 < n := Nat.div_lt_self h0 (by omega)
        rw [if_neg h0', if_neg h0', ih f' (n / 10) (by omega) (by omega)]

theorem decDigitsAux_lt_ten (fuel n : Nat) (h : n ≤ fuel) :
    ∀ d ∈ decDigitsAux fuel n, d < 10 := by
  induction fuel generalizing n with
  | zero =>
    interval_cases n
    simp [decDigitsAux]
  | succ f ih =>
    intro d hd
    simp only [decDigitsAux] at hd
    by_cases h0 : n = 0
    · simp [h0] at hd
    · rw [if_neg h0] at hd
      rcases List.mem_append.mp hd with hmem | hmem
      · have hdiv : n / 10 < n := Nat.div_lt_self (Nat.pos_of_ne_zero h0) (by omega)
        exact ih (n / 10) (by omega) d hmem
      · simp at hmem
        omega

theorem decDigitsAux_foldl (fuel n : Nat) (h : n ≤ fuel) :
    (decDigitsAux fuel n).foldl (fun a d => 10 * a + d) 0 = n := by
  induction fuel generalizing n with
  | zero =>
    interval_cases n
    simp [decDigitsAux]
  | succ f ih =>
    simp only [decDigitsAux]
    by_cases h0 : n = 0
    · simp [h0]
    · rw [if_neg h0, List.foldl_append]
      have hd : n / 10 < n := Nat.div_lt_self (Nat.pos_of_ne_zero h0) (by omega)
      rw [ih (n / 10) (by omega)]
      simp
      omega

theorem digit_char_toNat : ∀ d < 10, (Char.ofNat (48 + d)).toNat = 48 + d := by
  decide

/-- Round trip: reading back the decimal rendering recovers the number. -/
theorem decVal_natToString (n : Nat) : decVal (natToString n) = n := by
  unfold natToString
  by_cases h0 : n = 0
  · simp [h0, decVal]
  · rw [if_neg h0]
    show (String.mk ((decDigits n).map fun d => Char.ofNat (48 + d))).data.foldl
        (fun a c => 10 * a + (c.toNat - 48)) 0 = n
    have hlt : ∀ d ∈ decDigits n, d < 10 := decDigitsAux_lt_ten n n (Nat.le_refl n)
    have key : ∀ (l : List Nat), (∀ d ∈ l, d < 10) → ∀ (a : Nat),
        (l.map fun d => Char.ofNat (48 + d)).foldl (fun a c => 10 * a + (c.toNat - 48)) a
          = l.foldl (fun a d => 10 * a + d) a := by
      intro l
      induction l with
      | nil => intro _ a; rfl
      | cons x xs ih =>
        intro hl a
        simp only [List.map_cons, List.foldl_cons]
        rw [digit_char_toNat x (hl x (by simp)), ih (fun d hd => hl d (by simp [hd]))]
        congr 1
        omega
    rw [show (String.mk ((decDigits n).map fun d => Char.ofNat (48 + d))).data
        = (decDigits n).map fun d => Char.ofNat (48 + d) from rfl]
    rw [key (decDigits n) hlt 0]
    exact decDigitsAux_foldl n n (Nat.le_refl n)

theorem natToString_injective : Function.Injective natToString := by
  intro m n h
  have := congrArg decVal h
  rwa [decVal_natToString, decVal_natToString] at this

/-! ## Schema messages

The `rti` module is generated from the broker schema and is outside the
repository (spec section 1, "out of scope").  All message structs are
embedded as a single record of optional fields; every builder sets exactly
the fields the Rust source sets, all other fields keep the proto defaults
(`none` for optional scalar fields, `[]` for the repeated `user_msg`). -/

structure ProtoMsg where
  template_id : Int := 0
  template_version : Option String := none
  user : Option String := none
  password : Option String := none
  app_name : Option String := none
  app_version : Option String := none
  system_name : Option String := none
  infra_type : Option Int := none
  user_msg : List String := []
  symbol : Option String := none
  exchange : Option String := none
  request : Option Int := none
  update_bits : Option Nat := none
  give_toi_products_only : Option Bool := none
  search_text : Option String := none
  instrument_type : Option Int := none
  pattern : Option Int := none
  fcm_id : Option String := none
  ib_id : Option String := none
  account_id : Option String := none
  bar_type : Option Int := none
  bar_sub_type : Option Int := none
  bar_type_specifier : Option String := none
  bar_type_period : Option Int := none
  start_index : Option Int := none
  finish_index : Option Int := none
  direction : Option Int := none
  time_order : Option Int := none
  trade_route : Option String := none
  quantity : Option Int := none
  price : Option Float := none
  transaction_type : Option Int := none
  price_type : Option Int := none
  manual_or_auto : Option Int := none
  duration : Option Int := none
  user_tag : Option String := none
  user_type : Option Int := none
  bracket_type : Option Int := none
  target_quantity : Option Int := none
  stop_quantity : Option Int := none
  target_ticks : Option Int := none
  stop_ticks : Option Int := none
  basket_id : Option String := none
  trigger_price : Option Float := none

/-- Modelled from the schema (external to the repository): the numeric value
of `request_bracket_order::PriceType::Market`, used by `request_bracket_order`
to decide whether to omit the price ("omitted when price_type equals the
Market variant", spec section 4.2). -/
def priceTypeMarket : Int := 2

/-- Modelled from the schema (external): `request_search_symbols::Pattern::Equals`. -/
def patternEquals : Int := 1

/-- Modelled from the schema (external): `request_search_symbols::Pattern::Contains`. -/
def patternContains : Int := 2

/-- Modelled from the schema (external): `request_login::SysInfraType`. -/
inductive SysInfraType where
  | tickerPlant
  | orderPlant
  | historyPlant
  | pnlPlant
  | repositoryPlant
deriving DecidableEq

/-- Modelled from the schema (external): numeric values of `SysInfraType`. -/
def SysInfraType.toInt : SysInfraType → Int
  | .tickerPlant => 1
  | .orderPlant => 2
  | .historyPlant => 3
  | .pnlPlant => 4
  | .repositoryPlant => 5

/-- Structure `RithmicConnectionInfo` (module `api`, not under `src/`): modelled from the
spec, section 3 "ConnectionInfo": endpoint URL, system name, username, password. -/
structure RithmicConnectionInfo where
  url : String := ""
  system_name : String := ""
  user : String := ""
  password : String := ""
deriving DecidableEq

/-- Structure `RithmicBracketOrder` (module `api::rithmic_command_types`, not under
`src/`): modelled from the spec (scenario S2) and its use in
`request_bracket_order`. -/
structure RithmicBracketOrder where
  exchange : String
  symbol : String
  qty : Int
  action : Int
  ordertype : Int
  duration : Int
  profit_ticks : Int
  stop_ticks : Int
  price : Option Float
  localid : String

/-- Structure `RithmicModifyOrder` (module `api::rithmic_command_types`, not under
`src/`): modelled from the spec (scenario S3) and its use in the
`ModifyOrder` command arm. -/
structure RithmicModifyOrder where
  id : String
  exchange : String
  symbol : String
  qty : Int
  price : Float
  ordertype : Int

def TRADE_ROUTE_LIVE : String := "globex"
def TRADE_ROUTE_DEMO : String := "simulator"
def USER_TYPE : Int := 3

/-- The sender-encoder state (`RithmicSenderApi` in `sender_api.rs`). -/
structure RithmicSenderApi where
  account_id : String
  conn_info : RithmicConnectionInfo
  fcm_id : String
  ib_id : String
  message_id_counter : Nat

def u64Size : Nat := 2 ^ 64

namespace RithmicSenderApi

def new (conn_info : RithmicConnectionInfo) : RithmicSenderApi :=
  { account_id := ""
    conn_info := conn_info
    fcm_id := ""
    ib_id := ""
    message_id_counter := 0 }

/-- Method `get_next_message_id`: bump the `u64` counter (wrapping at `2^64`) and
render it in decimal. -/
def get_next_message_id (s : RithmicSenderApi) : String × RithmicSenderApi :=
  let c := (s.message_id_counter + 1) % u64Size
  (natToString c, { s with message_id_counter := c })

/-! Each builder mirrors one `pub fn request_...` of `sender_api.rs`.  The
Rust functions end with `request_to_buf(req, id)`, which frames the
prost-encoded bytes; the framing is embedded separately
(`request_to_buf_frame` below), so the builders here return the logical
message, the correlation tag, and the updated encoder state. -/

def request_get_instrument_by_underlying (s : RithmicSenderApi) :
    ProtoMsg × String × RithmicSenderApi :=
  let (id, s) := s.get_next_message_id
  ({ template_id := 103 }, id, s)

def request_heartbeat (s : RithmicSenderApi) : ProtoMsg × String × RithmicSenderApi :=
  let (id, s) := s.get_next_message_id
  ({ template_id := 18, user_msg := [id] }, id, s)

def request_login (s : RithmicSenderApi) (system_name : String)
    (infra_type : SysInfraType) (user password : String) :
    ProtoMsg × String × RithmicSenderApi :=
  let (id, s) := s.get_next_message_id
  ({ template_id := 10
     template_version := some "5.27"
     user := some user
     password := some password
     app_name := some "pede:pts"
     app_version := some "1"
     system_name := some system_name
     infra_type := some infra_type.toInt
     user_msg := [id] }, id, s)

def request_logout (s : RithmicSenderApi) : ProtoMsg × String × RithmicSenderApi :=
  let (id, s) := s.get_next_message_id
  ({ template_id := 12, user_msg := [id] }, id, s)

def request_market_data_update (s : RithmicSenderApi) (symbol exchange : String)
    (fields : List Nat) (request_type : Int) : ProtoMsg × String × RithmicSenderApi :=
  let (id, s) := s.get_next_message_id
  let bits := fields.foldl (fun b f => b ||| f) 0
  ({ template_id := 100
     user_msg := [id]
     symbol := some symbol
     exchange := some exchange
     request := some request_type
     update_bits := some bits }, id, s)

def request_product_codes (s : RithmicSenderApi) (exchange : Option String) :
    ProtoMsg × String × RithmicSenderApi :=
  let (id, s) := s.get_next_message_id
  ({ template_id := 111
     user_msg := [id]
     exchange := exchange
     give_toi_products_only := some true }, id, s)

def request_reference_data (s : RithmicSenderApi) (symbol exchange : Option String) :
    ProtoMsg × String × RithmicSenderApi :=
  let (id, s) := s.get_next_message_id
  ({ template_id := 14
     user_msg := [id]
     symbol := symbol
     exchange := exchange }, id, s)

def request_rithmic_system_gateway_info (s : RithmicSenderApi) (system_name : String) :
    ProtoMsg × String × RithmicSenderApi :=
  let (id, s) := s.get_next_message_id
  ({ template_id := 20
     user_msg := [id]
     system_name := some system_name }, id, s)

def request_rithmic_system_info (s : RithmicSenderApi) :
    ProtoMsg × String × RithmicSenderApi :=
  let (id, s) := s.get_next_message_id
  ({ template_id := 16, user_msg := [id] }, id, s)

def request_search_symbols (s : RithmicSenderApi) (search_text : Option String)
    (instrument_type : Option Int) (exact_search : Option Bool) :
    ProtoMsg × String × RithmicSenderApi :=
  let (id, s) := s.get_next_message_id
  ({ template_id := 109
     user_msg := [id]
     search_text := search_text
     instrument_type := match instrument_type with
       | some t => some t
       | none => none
     pattern := some (if (match exact_search with | some b => b | none => false)
       then patternEquals else patternContains) }, id, s)

def request_subscribe_for_order_updates (s : RithmicSenderApi) :
    ProtoMsg × String × RithmicSenderApi :=
  let (id, s) := s.get_next_message_id
  ({ template_id := 308
     fcm_id := some s.fcm_id
     ib_id := some s.ib_id
     account_id := some s.account_id
     user_msg := [id] }, id, s)

def request_subscribe_to_bracket_updates (s : RithmicSenderApi) :
    ProtoMsg × String × RithmicSenderApi :=
  let (id, s) := s.get_next_message_id
  ({ template_id := 336
     fcm_id := some s.fcm_id
     ib_id := some s.ib_id
     account_id := some s.account_id
     user_msg := [id] }, id, s)

def request_tick_bar_replay (s : RithmicSenderApi) (symbol exchange : String)
    (bar_type bar_sub_type : Int) (bar_type_specifier : String)
    (start_index finish_index : Int) (direction time_order : Int) :
    ProtoMsg × String × RithmicSenderApi :=
  let (id, s) := s.get_next_message_id
  ({ template_id := 206
     user_msg := [id]
     symbol := some symbol
     exchange := some exchange
     bar_type := some bar_type
     bar_sub_type := some bar_sub_type
     bar_type_specifier := some bar_type_specifier
     start_index := some start_index
     finish_index := some finish_index
     direction := some direction
     time_order := some time_order }, id, s)

def request_tick_bar_update (s : RithmicSenderApi) (symbol exchange : String)
    (bar_type bar_sub_type : Int) (bar_type_specifier : String) (request_type : Int) :
    ProtoMsg × String × RithmicSenderApi :=
  let (id, s) := s.get_next_message_id
  ({ template_id := 204
     user_msg := [id]
     symbol := some symbol
     exchange := some exchange
     bar_type := some bar_type
     bar_sub_type := some bar_sub_type
     bar_type_specifier := some bar_type_specifier
     request := some request_type }, id, s)

def request_time_bar_replay (s : RithmicSenderApi) (symbol exchange : String)
    (bar_type bar_type_period start_index finish_index direction time_order : Int) :
    ProtoMsg × String × RithmicSenderApi :=
  let (id, s) := s.get_next_message_id
  ({ template_id := 202
     user_msg := [id]
     symbol := some symbol
     exchange := some exchange
     bar_type := some bar_type
     bar_type_period := some bar_type_period
     start_index := some start_index
     finish_index := some finish_index
     direction := some direction
     time_order := some time_order }, id, s)

def request_time_bar_update (s : RithmicSenderApi) (symbol exchange : String)
    (bar_type bar_type_period request_type : Int) :
    ProtoMsg × String × RithmicSenderApi :=
  let (id, s) := s.get_next_message_id
  ({ template_id := 200
     user_msg := [id]
     symbol := some symbol
     exchange := some exchange
     bar_type := some bar_type
     bar_type_period := some bar_type_period
     request := some request_type }, id, s)

def request_new_order (s : RithmicSenderApi) (exchange symbol : String)
    (qty : Int) (price : Float) (action ordertype : Int) (localid : String)
    (duration : Option Int) : ProtoMsg × String × RithmicSenderApi :=
  let (id, s) := s.get_next_message_id
  let trade_route := ""
  ({ template_id := 312
     fcm_id := some s.fcm_id
     ib_id := some s.ib_id
     account_id := some s.account_id
     trade_route := some trade_route
     exchange := some exchange
     symbol := some symbol
     quantity := some qty
     price := some price
     transaction_type := some action
     price_type := some ordertype
     manual_or_auto := some 2
     duration := match duration with
       | some d => some d
       | none => some 1
     user_msg := [id]
     user_tag := some localid }, id, s)

def request_bracket_order (s : RithmicSenderApi) (bracket_order : RithmicBracketOrder) :
    ProtoMsg × String × RithmicSenderApi :=
  let (id, s) := s.get_next_message_id
  let trade_route := ""
  ({ template_id := 330
     fcm_id := some s.fcm_id
     ib_id := some s.ib_id
     account_id := some s.account_id
     trade_route := some trade_route
     exchange := some bracket_order.exchange
     symbol := some bracket_order.symbol
     user_type := some USER_TYPE
     quantity := some bracket_order.qty
     transaction_type := some bracket_order.action
     price_type := some bracket_order.ordertype
     manual_or_auto := some 2
     duration := some bracket_order.duration
     bracket_type := some 6
     target_quantity := some bracket_order.qty
     stop_quantity := some bracket_order.qty
     target_ticks := some bracket_order.profit_ticks
     stop_ticks := some bracket_order.stop_ticks
     price := if bracket_order.ordertype ≠ priceTypeMarket then bracket_order.price else none
     user_msg := [id]
     user_tag := some bracket_order.localid }, id, s)

def request_modify_order (s : RithmicSenderApi) (basket_id exchange symbol : String)
    (qty : Int) (price : Float) (ordertype : Int) :
    ProtoMsg × String × RithmicSenderApi :=
  let (id, s) := s.get_next_message_id
  ({ template_id := 314
     fcm_id := some s.fcm_id
     ib_id := some s.ib_id
     account_id := some s.account_id
     basket_id := some basket_id
     manual_or_auto := some 2
     exchange := some exchange
     symbol := some symbol
     price_type := some ordertype
     quantity := some qty
     price := some price
     user_msg := [id]
     trigger_price := if ordertype = 3 ∨ ordertype = 4 then some price else none }, id, s)

def request_cancel_order (s : RithmicSenderApi) (basket_id : String) :
    ProtoMsg × String × RithmicSenderApi :=
  let (id, s) := s.get_next_message_id
  ({ template_id := 316
     fcm_id := some s.fcm_id
     ib_id := some s.ib_id
     account_id := some s.account_id
     basket_id := some basket_id
     manual_or_auto := some 2
     user_msg := [id] }, id, s)

def request_exit_position (s : RithmicSenderApi) (symbol exchange : String) :
    ProtoMsg × String × RithmicSenderApi :=
  let (id, s) := s.get_next_message_id
  ({ template_id := 3504
     fcm_id := some s.fcm_id
     ib_id := some s.ib_id
     account_id := some s.account_id
     symbol := some symbol
     exchange := some exchange
     manual_or_auto := some 2
     user_msg := [id] }, id, s)

def request_update_target_bracket_level (s : RithmicSenderApi)
    (basket_id : String) (profit_ticks : Int) : ProtoMsg × String × RithmicSenderApi :=
  let (id, s) := s.get_next_message_id
  ({ template_id := 332
     fcm_id := some s.fcm_id
     ib_id := some s.ib_id
     account_id := some s.account_id
     basket_id := some basket_id
     target_ticks := some profit_ticks
     user_msg := [id] }, id, s)

def request_update_stop_bracket_level (s : RithmicSenderApi)
    (basket_id : String) (stop_ticks : Int) : ProtoMsg × String × RithmicSenderApi :=
  let (id, s) := s.get_next_message_id
  ({ template_id := 334
     fcm_id := some s.fcm_id
     ib_id := some s.ib_id
     account_id := some s.account_id
     basket_id := some basket_id
     stop_ticks := some stop_ticks
     user_msg := [id] }, id, s)

def request_show_brackets (s : RithmicSenderApi) : ProtoMsg × String × RithmicSenderApi :=
  let (id, s) := s.get_next_message_id
  ({ template_id := 338
     fcm_id := some s.fcm_id
     ib_id := some s.ib_id
     account_id := some s.account_id
     user_msg := [id] }, id, s)

def request_show_bracket_stops (s : RithmicSenderApi) : ProtoMsg × String × RithmicSenderApi :=
  let (id, s) := s.get_next_message_id
  ({ template_id := 340
     fcm_id := some s.fcm_id
     ib_id := some s.ib_id
     account_id := some s.account_id
     user_msg := [id] }, id, s)

def request_show_orders (s : RithmicSenderApi) : ProtoMsg × String × RithmicSenderApi :=
  let (id, s) := s.get_next_message_id
  ({ template_id := 320
     fcm_id := some s.fcm_id
     ib_id := some s.ib_id
     account_id := some s.account_id
     user_msg := [id] }, id, s)

def request_pnl_position_updates (s : RithmicSenderApi) (action : Int) :
    ProtoMsg × String × RithmicSenderApi :=
  let (id, s) := s.get_next_message_id
  ({ template_id := 400
     fcm_id := some s.fcm_id
     ib_id := some s.ib_id
     account_id := some s.account_id
     request := some action
     user_msg := [id] }, id, s)

def request_pnl_position_snapshot (s : RithmicSenderApi) :
    ProtoMsg × String × RithmicSenderApi :=
  let (id, s) := s.get_next_message_id
  ({ template_id := 402
     fcm_id := some s.fcm_id
     ib_id := some s.ib_id
     account_id := some s.account_id
     user_msg := [id] }, id, s)

end RithmicSenderApi

/-! ## The encoder operations as one sum type

`SenderOp` enumerates the public operations of `RithmicSenderApi` with their
arguments; `buildRequest` dispatches to the builder above, so that claims
quantifying over "every operation of the sender encoder" are statable. -/

inductive SenderOp where
  | getInstrumentByUnderlying
  | heartbeat
  | login (system_name : String) (infra_type : SysInfraType) (user password : String)
  | logout
  | marketDataUpdate (symbol exchange : String) (fields : List Nat) (request_type : Int)
  | productCodes (exchange : Option String)
  | referenceData (symbol exchange : Option String)
  | rithmicSystemGatewayInfo (system_name : String)
  | rithmicSystemInfo
  | searchSymbols (search_text : Option String) (instrument_type : Option Int)
      (exact_search : Option Bool)
  | subscribeForOrderUpdates
  | subscribeToBracketUpdates
  | tickBarReplay (symbol exchange : String) (bar_type bar_sub_type : Int)
      (bar_type_specifier : String) (start_index finish_index direction time_order : Int)
  | tickBarUpdate (symbol exchange : String) (bar_type bar_sub_type : Int)
      (bar_type_specifier : String) (request_type : Int)
  | timeBarReplay (symbol exchange : String)
      (bar_type bar_type_period start_index finish_index direction time_order : Int)
  | timeBarUpdate (symbol exchange : String) (bar_type bar_type_period request_type : Int)
  | newOrder (exchange symbol : String) (qty : Int) (price : Float)
      (action ordertype : Int) (localid : String) (duration : Option Int)
  | bracketOrder (bracket_order : RithmicBracketOrder)
  | modifyOrder (basket_id exchange symbol : String) (qty : Int) (price : Float)
      (ordertype : Int)
  | cancelOrder (basket_id : String)
  | exitPosition (symbol exchange : String)
  | updateTargetBracketLevel (basket_id : String) (profit_ticks : Int)
  | updateStopBracketLevel (basket_id : String) (stop_ticks : Int)
  | showBrackets
  | showBracketStops
  | showOrders
  | pnlPositionUpdates (action : Int)
  | pnlPositionSnapshot

open RithmicSenderApi in
def buildRequest (s : RithmicSenderApi) : SenderOp → ProtoMsg × String × RithmicSenderApi
  | .getInstrumentByUnderlying => request_get_instrument_by_underlying s
  | .heartbeat => request_heartbeat s
  | .login sys infra u p => request_login s sys infra u p
  | .logout => request_logout s
  | .marketDataUpdate sym ex fs rt => request_market_data_update s sym ex fs rt
  | .productCodes ex => request_product_codes s ex
  | .referenceData sym ex => request_reference_data s sym ex
  | .rithmicSystemGatewayInfo sys => request_rithmic_system_gateway_info s sys
  | .rithmicSystemInfo => request_rithmic_system_info s
  | .searchSymbols st it es => request_search_symbols s st it es
  | .subscribeForOrderUpdates => request_subscribe_for_order_updates s
  | .subscribeToBracketUpdates => request_subscribe_to_bracket_updates s
  | .tickBarReplay sym ex bt bst bts si fin dir tord => request_tick_bar_replay s sym ex bt bst bts si fin dir tord
  | .tickBarUpdate sym ex bt bst bts rt => request_tick_bar_update s sym ex bt bst bts rt
  | .timeBarReplay sym ex bt btp si fin dir tord => request_time_bar_replay s sym ex bt btp si fin dir tord
  | .timeBarUpdate sym ex bt btp rt => request_time_bar_update s sym ex bt btp rt
  | .newOrder ex sym q pr act ot lid dur => request_new_order s ex sym q pr act ot lid dur
  | .bracketOrder bo => request_bracket_order s bo
  | .modifyOrder bid ex sym q pr ot => request_modify_order s bid ex sym q pr ot
  | .cancelOrder bid => request_cancel_order s bid
  | .exitPosition sym ex => request_exit_position s sym ex
  | .updateTargetBracketLevel bid pt => request_update_target_bracket_level s bid pt
  | .updateStopBracketLevel bid st => request_update_stop_bracket_level s bid st
  | .showBrackets => request_show_brackets s
  | .showBracketStops => request_show_bracket_stops s
  | .showOrders => request_show_orders s
  | .pnlPositionUpdates act => request_pnl_position_updates s act
  | .pnlPositionSnapshot => request_pnl_position_snapshot s

/-- Collect the correlation tags returned by a sequence of encode calls. -/
def runOps (s : RithmicSenderApi) : List SenderOp → List String
  | [] => []
  | op :: ops =>
    let r := buildRequest s op
    r.2.1 :: runOps r.2.2 ops

/-! ## Frame codec (`request_to_buf` in `sender_api.rs`)

`request_to_buf` frames the prost-encoded message: `len = encoded_len as u32`
(truncating cast), `header = len.to_be_bytes()`, buffer = header followed by
the encoded payload.  Prost encoding itself is external; the codec is
embedded over an arbitrary payload byte list. -/

/-- Big-endian bytes of a `u32` (models the `as u32` cast by `% 2^32`). -/
def u32_to_be_bytes (n : Nat) : List Nat :=
  let m := n % 2 ^ 32
  [m / 2 ^ 24 % 256, m / 2 ^ 16 % 256, m / 2 ^ 8 % 256, m % 256]

/-- The byte-level effect of `request_to_buf` on the encoded payload. -/
def request_to_buf_frame (payload : List Nat) : List Nat :=
  u32_to_be_bytes payload.length ++ payload

/-- Read the big-endian integer in the first 4 bytes of a frame. -/
def read_u32_be (bs : List Nat) : Nat :=
  (bs.take 4).foldl (fun a b => a * 256 + b) 0

/-! ## Order-plant actor (`plants/order_plant.rs`)

The actor owns the encoder, a request registry and a broadcast channel, and
reacts to heartbeat ticks, caller commands and inbound WebSocket messages.
Its handlers are embedded as pure functions that return the successor state
together with a trace of observable actions; a `.unwrap()` on a failed
operation is recorded by the `panicked` flag (the Rust task unwinds there).
The WebSocket transport is external, so each step takes the outcome of its
send as an oracle argument (`sendOk`), and an inbound binary frame carries
the result of `RithmicReceiverApi::buf_to_message` directly (module
`api::receiver_api` is not under `src/`; its output record is modelled from
the spec, section 3 "InboundResponse"). -/

/-- Modelled from the spec (section 3): the canonical decoded inbound
record; only the fields the order plant reads are carried. -/
structure RithmicResponse where
  template_id : Int := 0
  correlation_tag : Option String := none
  is_update : Bool := false
  error : Option String := none
deriving DecidableEq

/-- An in-flight registration: correlation tag plus its one-shot reply
sink, the sink identified by an abstract id. -/
structure RithmicRequest where
  request_id : String
  responder : Nat
deriving DecidableEq

/-- Modelled from the spec (section 4.4): the request registry
(`request_handler.rs` is not under `src/`); entries in insertion order. -/
structure RithmicRequestHandler where
  requests : List RithmicRequest
deriving DecidableEq

def RithmicRequestHandler.new : RithmicRequestHandler := ⟨[]⟩

/-- Modelled from the spec (section 4.4): `register` inserts a new entry. -/
def RithmicRequestHandler.register_request (h : RithmicRequestHandler)
    (r : RithmicRequest) : RithmicRequestHandler :=
  ⟨h.requests ++ [r]⟩

/-- Observable actions of the actor. -/
inductive PlantAction where
  | register (tag : String) (sink : Nat)
  | wsSend (msg : ProtoMsg)
  | wsSendClose
  | fulfil (sink : Nat) (error : Option String)
  | broadcast (r : RithmicResponse)
  | deliver (r : RithmicResponse)

def isFulfil : PlantAction → Bool
  | .fulfil _ _ => true
  | _ => false

def isRegister : PlantAction → Bool
  | .register _ _ => true
  | _ => false

def isWsSend : PlantAction → Bool
  | .wsSend _ => true
  | _ => false

/-- Modelled from the spec (section 4.4): delivering a matched single-part
reply removes the entry and fulfils its sink (the multi-part accumulation
of section 4.4 is not modelled; no claim depends on it).  An unmatched
reply is dropped. -/
def RithmicRequestHandler.handle_response (h : RithmicRequestHandler)
    (r : RithmicResponse) : RithmicRequestHandler × List PlantAction :=
  match r.correlation_tag with
  | none => (h, [])
  | some tag =>
    if h.requests.any (fun e => e.request_id = tag) then
      (⟨h.requests.filter (fun e => ¬ e.request_id = tag)⟩,
       (h.requests.filter (fun e => e.request_id = tag)).map
         (fun e => .fulfil e.responder r.error))
    else (h, [])

/-- Commands of the actor (`OrderPlantCommand`); reply sinks are abstract ids. -/
inductive OrderPlantCommand where
  | close
  | login (response_sender : Nat)
  | setLogin
  | logout (response_sender : Nat)
  | sendHeartbeat
  | subscribeOrderUpdates (response_sender : Nat)
  | subscribeBracketUpdates (response_sender : Nat)
  | subscribePnlUpdates (response_sender : Nat)
  | placeBracketOrder (bracket_order : RithmicBracketOrder) (response_sender : Nat)
  | modifyOrder (order : RithmicModifyOrder) (response_sender : Nat)
  | modifyStop (order_id : String) (ticks : Int) (response_sender : Nat)
  | modifyProfit (order_id : String) (ticks : Int) (response_sender : Nat)
  | cancelOrder (order_id : String) (response_sender : Nat)
  | showOrders (response_sender : Nat)

/-- Does the command carry a reply sink? -/
def expectsReply : OrderPlantCommand → Bool
  | .login _ | .logout _ | .subscribeOrderUpdates _ | .subscribeBracketUpdates _
  | .subscribePnlUpdates _ | .placeBracketOrder _ _ | .modifyOrder _ _
  | .modifyStop _ _ _ | .modifyProfit _ _ _ | .cancelOrder _ _ | .showOrders _ => true
  | _ => false

/-- Reply-expecting commands that reach a `handle_command` arm performing a
send (`SubscribePnlUpdates` falls into the catch-all `_ => {}` arm). -/
def performsSend : OrderPlantCommand → Bool
  | .subscribePnlUpdates _ => false
  | c => expectsReply c

/-- The actor state (`OrderPlant`): the websocket halves are external, the
broadcast sender is abstracted by its live-receiver count. -/
structure OrderPlant where
  config : RithmicConnectionInfo
  logged_in : Bool
  request_handler : RithmicRequestHandler
  rithmic_sender_api : RithmicSenderApi
  subscriber_count : Nat

/-- Result of one handler invocation. -/
structure StepResult where
  state : OrderPlant
  trace : List PlantAction
  panicked : Bool := false
  stop : Bool := false

/-- The arm pattern shared by every registered command: build the request,
register the tag with the reply sink, then send the framed bytes,
unwrapping the send result. -/
def sendRegistered (st : OrderPlant) (r : ProtoMsg × String × RithmicSenderApi)
    (sink : Nat) (sendOk : Bool) : StepResult :=
  { state := { st with
      rithmic_sender_api := r.2.2
      request_handler := st.request_handler.register_request ⟨r.2.1, sink⟩ }
    trace := [.register r.2.1 sink, .wsSend r.1]
    panicked := !sendOk }

/-- Embedding of `OrderPlant::handle_command`.  `sendOk` is the outcome of the websocket
send the arm performs, if any. -/
def OrderPlant.handle_command (st : OrderPlant) (command : OrderPlantCommand)
    (sendOk : Bool) : StepResult :=
  match command with
  | .close =>
    { state := st, trace := [.wsSendClose], panicked := !sendOk }
  | .login response_sender =>
    sendRegistered st
      (st.rithmic_sender_api.request_login st.config.system_name .orderPlant
        st.config.user st.config.password) response_sender sendOk
  | .setLogin =>
    { state := { st with logged_in := true }, trace := [] }
  | .logout response_sender =>
    sendRegistered st st.rithmic_sender_api.request_logout response_sender sendOk
  | .sendHeartbeat =>
    let r := st.rithmic_sender_api.request_heartbeat
    { state := { st with rithmic_sender_api := r.2.2 }
      trace := [.wsSend r.1]
      panicked := false }
  | .subscribeOrderUpdates response_sender =>
    sendRegistered st st.rithmic_sender_api.request_subscribe_for_order_updates
      response_sender sendOk
  | .subscribeBracketUpdates response_sender =>
    sendRegistered st st.rithmic_sender_api.request_subscribe_to_bracket_updates
      response_sender sendOk
  | .subscribePnlUpdates _ =>
    { state := st, trace := [] }
  | .placeBracketOrder bracket_order response_sender =>
    sendRegistered st (st.rithmic_sender_api.request_bracket_order bracket_order)
      response_sender sendOk
  | .modifyOrder order response_sender =>
    sendRegistered st
      (st.rithmic_sender_api.request_modify_order order.id order.exchange order.symbol
        order.qty order.price order.ordertype) response_sender sendOk
  | .modifyStop order_id ticks response_sender =>
    sendRegistered st
      (st.rithmic_sender_api.request_update_stop_bracket_level order_id ticks)
      response_sender sendOk
  | .modifyProfit order_id ticks response_sender =>
    sendRegistered st
      (st.rithmic_sender_api.request_update_target_bracket_level order_id ticks)
      response_sender sendOk
  | .cancelOrder order_id response_sender =>
    sendRegistered st (st.rithmic_sender_api.request_cancel_order order_id)
      response_sender sendOk
  | .showOrders response_sender =>
    sendRegistered st st.rithmic_sender_api.request_show_orders response_sender sendOk

/-- An inbound websocket event as `handle_rithmic_message` receives it; a
binary frame carries its decode result. -/
inductive RithmicMessage where
  | closeFrame
  | binary (decoded : Except String RithmicResponse)
  | errConnectionClosed
  | other

/-- Embedding of `OrderPlant::handle_rithmic_message`: close frame and the
connection-closed transport error set the stop flag; a decoded update is
broadcast with the send result unwrapped (panics when there is no live
subscriber); a decoded reply is handed to the registry; a decode error is
logged and dropped; other frames are ignored. -/
def OrderPlant.handle_rithmic_message (st : OrderPlant) (message : RithmicMessage) :
    StepResult :=
  match message with
  | .closeFrame => { state := st, trace := [], stop := true }
  | .binary (.ok response) =>
    if response.is_update then
      { state := st
        trace := [.broadcast response]
        panicked := st.subscriber_count == 0 }
    else
      let hr := st.request_handler.handle_response response
      { state := { st with request_handler := hr.1 }
        trace := .deliver response :: hr.2 }
  | .binary (.error _) => { state := st, trace := [] }
  | .errConnectionClosed => { state := st, trace := [], stop := true }
  | .other => { state := st, trace := [] }

/-- One iteration of the `select` in `OrderPlant::run`. -/
inductive PlantEvent where
  | tick (sendOk : Bool)
  | command (c : OrderPlantCommand) (sendOk : Bool)
  | ws (m : RithmicMessage)

def stepEvent (st : OrderPlant) : PlantEvent → StepResult
  | .tick sendOk =>
    if st.logged_in then st.handle_command .sendHeartbeat sendOk
    else { state := st, trace := [] }
  | .command c sendOk => st.handle_command c sendOk
  | .ws m => st.handle_rithmic_message m

/-- Outcome of running the event loop. -/
structure RunResult where
  state : OrderPlant
  trace : List PlantAction
  panicked : Bool

/-- Embedding of `OrderPlant::run`: serve events until a handler sets the stop flag (the
loop breaks), a panic unwinds, or every source is exhausted (the `else`
branch breaks). -/
def runLoop (st : OrderPlant) : List PlantEvent → RunResult
  | [] => ⟨st, [], false⟩
  | e :: es =>
    let r := stepEvent st e
    if r.panicked then ⟨r.state, r.trace, true⟩
    else if r.stop then ⟨r.state, r.trace, false⟩
    else
      let rest := runLoop r.state es
      ⟨rest.state, r.trace ++ rest.trace, rest.panicked⟩

/-- Embedding of `RithmicOrderPlant::new` composed with `OrderPlant::new`: fresh encoder,
empty registry, not logged in; the broadcast channel's only initial
receiver (`_sub_rx`) is dropped before any handle subscribes, so the
actor starts with zero live subscribers. -/
def RithmicOrderPlant.new (conn_info : RithmicConnectionInfo) : OrderPlant :=
  { config := conn_info
    logged_in := false
    request_handler := .new
    rithmic_sender_api := .new conn_info
    subscriber_count := 0 }

/-! ## Helper lemmas: the correlation-tag counter -/

theorem buildRequest_tag (s : RithmicSenderApi) (op : SenderOp) :
    (buildRequest s op).2.1 = natToString ((s.message_id_counter + 1) % u64Size) := by
  cases op <;> rfl

theorem buildRequest_counter (s : RithmicSenderApi) (op : SenderOp) :
    (buildRequest s op).2.2.message_id_counter = (s.message_id_counter + 1) % u64Size := by
  cases op <;> rfl

/-- The tag stream of any sequence of encode calls, in closed form. -/
theorem runOps_eq (s : RithmicSenderApi) (ops : List SenderOp) :
    runOps s ops = (List.range ops.length).map
      (fun k => natToString ((s.message_id_counter + k + 1) % u64Size)) := by
  induction ops generalizing s with
  | nil => rfl
  | cons op ops ih =>
    show (buildRequest s op).2.1 :: runOps (buildRequest s op).2.2 ops = _
    rw [buildRequest_tag, ih, buildRequest_counter]
    simp only [List.length_cons, List.range_succ_eq_map, List.map_cons, List.map_map]
    congr 1
    apply List.map_congr_left
    intro k _
    simp only [Function.comp]
    rw [Nat.add_assoc ((s.message_id_counter + 1) % u64Size) k 1, Nat.mod_add_mod]
    have h : s.message_id_counter + 1 + (k + 1) = s.message_id_counter + k.succ + 1 := by
      omega
    rw [h]

/-! ## Claim C3 -/

/-- C3 (amended): for any sequence of at most `2^64 - 1` encode calls on one
fresh encoder instance (any mix of operations), the returned correlation
tags are pairwise distinct and, read as decimal integers, strictly
increasing starting from "1".  (The counter is a wrapping `u64`, so the
bound is forced: the `2^64`-th call returns "0" and the `2^64+1`-st call
returns "1" again.) -/
theorem c3_tags_strictly_increasing (conn : RithmicConnectionInfo)
    (ops : List SenderOp) (h : ops.length < u64Size) :
    (runOps (RithmicSenderApi.new conn) ops).Pairwise
      (fun a b => decVal a < decVal b) ∧
    (runOps (RithmicSenderApi.new conn) ops).Pairwise (fun a b => a ≠ b) ∧
    (0 < ops.length → (runOps (RithmicSenderApi.new conn) ops).head? = some "1") := by
  have hrw : runOps (RithmicSenderApi.new conn) ops =
      (List.range ops.length).map (fun k => natToString (k + 1)) := by
    rw [runOps_eq]
    apply List.map_congr_left
    intro k hk
    have hk' : k < ops.length := List.mem_range.mp hk
    have : (RithmicSenderApi.new conn).message_id_counter + k + 1 = k + 1 := by
      simp [RithmicSenderApi.new]
    rw [this, Nat.mod_eq_of_lt (by omega)]
  rw [hrw]
  refine ⟨?_, ?_, ?_⟩
  · rw [List.pairwise_map]
    apply (List.pairwise_lt_range ops.length).imp
    intro a b hab
    rw [decVal_natToString, decVal_natToString]
    omega
  · rw [List.pairwise_map]
    apply (List.pairwise_lt_range ops.length).imp
    intro a b hab heq
    have := natToString_injective heq
    omega
  · intro hpos
    obtain ⟨m, hm⟩ : ∃ m, ops.length = m + 1 := ⟨ops.length - 1, by omega⟩
    rw [hm, List.range_succ_eq_map]
    rfl

/-- C3 counterexample: on the `2^64 + 1`-st encode call the wrapping `u64`
counter has come back to `1`, so the first and last tags coincide — the
claim's "for any N, pairwise distinct / never reused" fails at
`N = 2^64 + 1`. -/
theorem c3_cex :
    ¬ (runOps (RithmicSenderApi.new {})
        (List.replicate (u64Size + 1) SenderOp.heartbeat)).Pairwise
      (fun a b => a ≠ b) := by
  intro hp
  rw [runOps_eq, List.pairwise_iff_getElem] at hp
  have hU : u64Size = 18446744073709551616 := by norm_num [u64Size]
  have key := hp 0 u64Size (by simp) (by simp) (by rw [hU]; omega)
  refine key ?_
  rw [List.getElem_map, List.getElem_map, List.getElem_range, List.getElem_range]
  congr 1

/-- Witness for C3 at a concrete three-operation sequence. -/
theorem c3_tags_strictly_increasing_witness :
    ([SenderOp.heartbeat, SenderOp.logout, SenderOp.showOrders].length < u64Size) ∧
    ((runOps (RithmicSenderApi.new {})
        [SenderOp.heartbeat, SenderOp.logout, SenderOp.showOrders]).Pairwise
        (fun a b => decVal a < decVal b) ∧
      (runOps (RithmicSenderApi.new {})
        [SenderOp.heartbeat, SenderOp.logout, SenderOp.showOrders]).Pairwise
        (fun a b => a ≠ b) ∧
      (0 < [SenderOp.heartbeat, SenderOp.logout, SenderOp.showOrders].length →
        (runOps (RithmicSenderApi.new {})
          [SenderOp.heartbeat, SenderOp.logout, SenderOp.showOrders]).head? = some "1")) :=
  ⟨by decide, c3_tags_strictly_increasing {}
    [SenderOp.heartbeat, SenderOp.logout, SenderOp.showOrders] (by decide)⟩

/-! ## Claim C2 -/

/-- C2 counterexample: `request_get_instrument_by_underlying` obtains a fresh
tag ("1" on a fresh encoder) and returns it, but builds its message with the
proto-default empty `user_msg`, so `user_msg ≠ [tag]`. -/
theorem c2_cex :
    ¬ ((RithmicSenderApi.new {}).request_get_instrument_by_underlying.1.user_msg
        = [(RithmicSenderApi.new {}).request_get_instrument_by_underlying.2.1]) ∧
    (RithmicSenderApi.new {}).request_get_instrument_by_underlying.1.user_msg = [] ∧
    (RithmicSenderApi.new {}).request_get_instrument_by_underlying.2.1 = "1" := by
  refine ⟨by decide, rfl, by decide⟩

/-- C2 (amended): every sender-encoder operation except
`request_get_instrument_by_underlying` stamps the freshly obtained
correlation tag as the sole element of `user_msg`, and the returned tag
equals that element; `request_get_instrument_by_underlying` leaves
`user_msg` empty. -/
theorem c2_user_msg_is_tag (s : RithmicSenderApi) (op : SenderOp) :
    (op ≠ SenderOp.getInstrumentByUnderlying →
      (buildRequest s op).1.user_msg = [(buildRequest s op).2.1]) ∧
    (buildRequest s SenderOp.getInstrumentByUnderlying).1.user_msg = [] := by
  refine ⟨fun h => ?_, rfl⟩
  cases op <;> first
    | exact absurd rfl h
    | rfl

/-- Witness for C2 at the heartbeat operation on a fresh encoder. -/
theorem c2_user_msg_is_tag_witness :
    (buildRequest (RithmicSenderApi.new {}) SenderOp.heartbeat).1.user_msg
      = [(buildRequest (RithmicSenderApi.new {}) SenderOp.heartbeat).2.1] :=
  (c2_user_msg_is_tag (RithmicSenderApi.new {}) SenderOp.heartbeat).1
    (fun h => SenderOp.noConfusion h)

/-! ## Claim C6 -/

/-- C6: for every schema-encoded payload of length `N < 2^32` (the length is
cast to `u32` for the header), the emitted frame has length `N + 4`, its
first four bytes are `N` big-endian, the remainder is exactly the payload,
and reading the big-endian integer back recovers the stripped payload's
length. -/
theorem c6_frame_roundtrip (payload : List Nat) (h : payload.length < 2 ^ 32) :
    (request_to_buf_frame payload).length = payload.length + 4 ∧
    (request_to_buf_frame payload).take 4 = u32_to_be_bytes payload.length ∧
    (request_to_buf_frame payload).drop 4 = payload ∧
    read_u32_be (request_to_buf_frame payload)
      = ((request_to_buf_frame payload).drop 4).length := by
  have hmod : payload.length % 2 ^ 32 = payload.length := Nat.mod_eq_of_lt h
  have hlen4 : (u32_to_be_bytes payload.length).length = 4 := rfl
  have hdrop : (request_to_buf_frame payload).drop 4 = payload :=
    List.drop_left' hlen4
  refine ⟨?_, List.take_left' hlen4, hdrop, ?_⟩
  · show (u32_to_be_bytes payload.length ++ payload).length = payload.length + 4
    rw [List.length_append, hlen4]
    omega
  · rw [hdrop]
    show ((u32_to_be_bytes payload.length ++ payload).take 4).foldl
        (fun a b => a * 256 + b) 0 = payload.length
    rw [List.take_left' hlen4]
    show (((0 * 256 + payload.length % 2 ^ 32 / 2 ^ 24 % 256) * 256
        + payload.length % 2 ^ 32 / 2 ^ 16 % 256) * 256
        + payload.length % 2 ^ 32 / 2 ^ 8 % 256) * 256
        + payload.length % 2 ^ 32 % 256 = payload.length
    rw [hmod]
    have e24 : (2 : Nat) ^ 24 = 16777216 := by norm_num
    have e16 : (2 : Nat) ^ 16 = 65536 := by norm_num
    have e8 : (2 : Nat) ^ 8 = 256 := by norm_num
    have e32 : (2 : Nat) ^ 32 = 4294967296 := by norm_num
    rw [e24, e16, e8]
    rw [e32] at h
    omega

/-- Witness for C6 at a concrete three-byte payload. -/
theorem c6_frame_roundtrip_witness :
    ([7, 8, 9] : List Nat).length < 2 ^ 32 ∧
    ((request_to_buf_frame [7, 8, 9]).length = ([7, 8, 9] : List Nat).length + 4 ∧
      (request_to_buf_frame [7, 8, 9]).take 4 = u32_to_be_bytes ([7, 8, 9] : List Nat).length ∧
      (request_to_buf_frame [7, 8, 9]).drop 4 = [7, 8, 9] ∧
      read_u32_be (request_to_buf_frame [7, 8, 9])
        = ((request_to_buf_frame [7, 8, 9]).drop 4).length) :=
  ⟨by decide, c6_frame_roundtrip [7, 8, 9] (by decide)⟩

/-! ## Claim C7 -/

/-- C7: on every bracket-order request the `price` field is omitted when the
caller's `price_type` is the Market variant (whatever price the caller
supplied), and equals the caller's price otherwise. -/
theorem c7_bracket_price (s : RithmicSenderApi) (bo : RithmicBracketOrder) :
    (bo.ordertype = priceTypeMarket →
      (s.request_bracket_order bo).1.price = none) ∧
    (bo.ordertype ≠ priceTypeMarket →
      (s.request_bracket_order bo).1.price = bo.price) := by
  constructor <;> intro h <;>
    simp [RithmicSenderApi.request_bracket_order, RithmicSenderApi.get_next_message_id, h]

/-- Witness for C7: a Market bracket order with a supplied price has no
price field; a limit-type bracket order keeps the caller's price. -/
theorem c7_bracket_price_witness :
    ((RithmicSenderApi.new {}).request_bracket_order
        { exchange := "CME", symbol := "ESZ4", qty := 1, action := 1
          ordertype := priceTypeMarket, duration := 1, profit_ticks := 8
          stop_ticks := 4, price := some (5000.0 : Float), localid := "L1" }).1.price
      = none ∧
    ((RithmicSenderApi.new {}).request_bracket_order
        { exchange := "CME", symbol := "ESZ4", qty := 1, action := 1
          ordertype := 1, duration := 1, profit_ticks := 8
          stop_ticks := 4, price := some (4999.25 : Float), localid := "L2" }).1.price
      = some (4999.25 : Float) :=
  ⟨(c7_bracket_price (RithmicSenderApi.new {})
      { exchange := "CME", symbol := "ESZ4", qty := 1, action := 1
        ordertype := priceTypeMarket, duration := 1, profit_ticks := 8
        stop_ticks := 4, price := some (5000.0 : Float), localid := "L1" }).1 rfl,
   (c7_bracket_price (RithmicSenderApi.new {})
      { exchange := "CME", symbol := "ESZ4", qty := 1, action := 1
        ordertype := 1, duration := 1, profit_ticks := 8
        stop_ticks := 4, price := some (4999.25 : Float), localid := "L2" }).2
      (by decide)⟩

/-! ## Claim C8 -/

/-- C8 counterexample: the bracket target-level adjust request
(`request_update_target_bracket_level`, template 332) is built without a
`manual_or_auto` field — the struct literal in the source sets only
template id, session identity, basket id, ticks and `user_msg` — so its
`manual_or_auto` is not the claimed `2`. -/
theorem c8_cex :
    ((RithmicSenderApi.new {}).request_update_target_bracket_level "B1" 8).1.manual_or_auto
        = none ∧
    ¬ (((RithmicSenderApi.new {}).request_update_target_bracket_level "B1" 8).1.manual_or_auto
        = some 2) := by
  refine ⟨rfl, by decide⟩

/-- C8 (amended): `manual_or_auto = 2` is stamped on new-order, bracket,
modify, cancel and exit-position requests; the bracket target/stop adjust
requests carry no `manual_or_auto` at all. -/
theorem c8_manual_or_auto :
    (∀ (s : RithmicSenderApi) (ex sym : String) (q : Int) (pr : Float)
        (act ot : Int) (lid : String) (dur : Option Int),
      (s.request_new_order ex sym q pr act ot lid dur).1.manual_or_auto = some 2) ∧
    (∀ (s : RithmicSenderApi) (bo : RithmicBracketOrder),
      (s.request_bracket_order bo).1.manual_or_auto = some 2) ∧
    (∀ (s : RithmicSenderApi) (bid ex sym : String) (q : Int) (pr : Float) (ot : Int),
      (s.request_modify_order bid ex sym q pr ot).1.manual_or_auto = some 2) ∧
    (∀ (s : RithmicSenderApi) (bid : String),
      (s.request_cancel_order bid).1.manual_or_auto = some 2) ∧
    (∀ (s : RithmicSenderApi) (sym ex : String),
      (s.request_exit_position sym ex).1.manual_or_auto = some 2) ∧
    (∀ (s : RithmicSenderApi) (bid : String) (pt : Int),
      (s.request_update_target_bracket_level bid pt).1.manual_or_auto = none) ∧
    (∀ (s : RithmicSenderApi) (bid : String) (st : Int),
      (s.request_update_stop_bracket_level bid st).1.manual_or_auto = none) := by
  refine ⟨?_, ?_, ?_, ?_, ?_, ?_, ?_⟩ <;> intros <;> rfl

/-! ## Claim C1 -/

/-- C1 counterexample: with one pending registration (tag "5", sink 3), a
server close frame stops the loop, yet the loop returns with the
registration still pending and no reply sink fulfilled — the claimed
"fulfil all pending registrations with a connection-closed error before
returning" does not happen. -/
theorem c1_cex :
    (runLoop { RithmicOrderPlant.new {} with request_handler := ⟨[⟨"5", 3⟩]⟩ }
        [.ws .closeFrame]).state.request_handler.requests = [⟨"5", 3⟩] ∧
    (runLoop { RithmicOrderPlant.new {} with request_handler := ⟨[⟨"5", 3⟩]⟩ }
        [.ws .closeFrame]).trace.countP isFulfil = 0 ∧
    (runLoop { RithmicOrderPlant.new {} with request_handler := ⟨[⟨"5", 3⟩]⟩ }
        [.ws .closeFrame]).panicked = false := by
  refine ⟨by decide, by decide, by decide⟩

/-- C1 (amended): when the actor stops because the server sent a close frame
or the transport reported the connection closed, the event loop returns at
once with the registry unchanged and no reply sink completed: pending
registrations are not fulfilled with any error (their channels are simply
dropped with the actor). -/
theorem c1_stop_leaves_pending (st : OrderPlant) :
    ((runLoop st [.ws .closeFrame]).state.request_handler.requests
        = st.request_handler.requests ∧
      (runLoop st [.ws .closeFrame]).trace.countP isFulfil = 0) ∧
    ((runLoop st [.ws .errConnectionClosed]).state.request_handler.requests
        = st.request_handler.requests ∧
      (runLoop st [.ws .errConnectionClosed]).trace.countP isFulfil = 0) :=
  ⟨⟨rfl, rfl⟩, ⟨rfl, rfl⟩⟩

/-! ## Claim C4 -/

/-- C4: for every command that expects a reply, whenever the handler
performs the WebSocket send of the request's frame, the registration of the
request's correlation tag (with its reply sink) occurs strictly before it
in the action trace — the trace is exactly registration followed by send,
and the frame's `user_msg` carries that very tag.  (The only reply-carrying
command with an empty trace is `SubscribePnlUpdates`, which falls into the
catch-all arm and performs neither.) -/
theorem c4_register_before_send (st : OrderPlant) (c : OrderPlantCommand)
    (sendOk : Bool) (h : expectsReply c = true) :
    (st.handle_command c sendOk).trace = [] ∨
    ∃ tag sink msg, (st.handle_command c sendOk).trace
        = [PlantAction.register tag sink, PlantAction.wsSend msg] ∧
      msg.user_msg = [tag] := by
  cases c <;> first
    | exact absurd h (by decide)
    | exact Or.inl rfl
    | exact Or.inr ⟨_, _, _, rfl, rfl⟩

/-- Witness for C4 at a concrete login command. -/
theorem c4_register_before_send_witness :
    expectsReply (.login 5) = true ∧
    (((RithmicOrderPlant.new {}).handle_command (.login 5) true).trace = [] ∨
      ∃ tag sink msg, ((RithmicOrderPlant.new {}).handle_command (.login 5) true).trace
          = [PlantAction.register tag sink, PlantAction.wsSend msg] ∧
        msg.user_msg = [tag]) :=
  ⟨rfl, c4_register_before_send (RithmicOrderPlant.new {}) (.login 5) true rfl⟩

/-! ## Claim C5 -/

/-- C5 counterexample: a cancel-order command whose WebSocket send fails
panics on the `unwrap`, leaves the fresh registration ("1", sink 7) in the
registry, and fulfils no reply sink — the claimed "fulfil the sink with a
transport error and remove the registration" does not happen. -/
theorem c5_cex :
    ((RithmicOrderPlant.new {}).handle_command (.cancelOrder "B9" 7) false).panicked
        = true ∧
    ((RithmicOrderPlant.new {}).handle_command
        (.cancelOrder "B9" 7) false).trace.countP isFulfil = 0 ∧
    ((RithmicOrderPlant.new {}).handle_command
        (.cancelOrder "B9" 7) false).state.request_handler.requests = [⟨"1", 7⟩] := by
  refine ⟨by decide, by decide, by decide⟩

/-- C5 (amended): if the WebSocket send of a registered request's frame
fails, the actor panics (the send result is unwrapped), the registration
remains appended to the registry, and no reply sink is completed. -/
theorem c5_send_failure_panics (st : OrderPlant) (c : OrderPlantCommand)
    (h : performsSend c = true) :
    (st.handle_command c false).panicked = true ∧
    (st.handle_command c false).trace.countP isFulfil = 0 ∧
    ∃ tag sink, (st.handle_command c false).state.request_handler.requests
        = st.request_handler.requests ++ [⟨tag, sink⟩] := by
  cases c <;> first
    | exact absurd h (by decide)
    | exact ⟨rfl, rfl, _, _, rfl⟩
    | simp [performsSend] at h

/-- Witness for C5 at a concrete cancel command. -/
theorem c5_send_failure_panics_witness :
    performsSend (.cancelOrder "B9" 7) = true ∧
    (((RithmicOrderPlant.new {}).handle_command (.cancelOrder "B9" 7) false).panicked
        = true ∧
      ((RithmicOrderPlant.new {}).handle_command
          (.cancelOrder "B9" 7) false).trace.countP isFulfil = 0 ∧
      ∃ tag sink, ((RithmicOrderPlant.new {}).handle_command
          (.cancelOrder "B9" 7) false).state.request_handler.requests
        = (RithmicOrderPlant.new {}).request_handler.requests ++ [⟨tag, sink⟩]) :=
  ⟨rfl, c5_send_failure_panics (RithmicOrderPlant.new {}) (.cancelOrder "B9" 7) rfl⟩

/-! ## Claim C9 -/

/-- C9: a heartbeat tick produces exactly one outbound heartbeat frame
(template 18, `user_msg` carrying the fresh tag, no registry entry, no
panic even on send failure since the heartbeat send result is discarded)
when `logged_in` is set, and produces nothing at all otherwise. -/
theorem c9_heartbeat_iff_logged_in (st : OrderPlant) (sendOk : Bool) :
    (stepEvent st (.tick sendOk)).trace
      = (if st.logged_in
          then [PlantAction.wsSend st.rithmic_sender_api.request_heartbeat.1]
          else []) ∧
    st.rithmic_sender_api.request_heartbeat.1.template_id = 18 ∧
    (stepEvent st (.tick sendOk)).trace.countP isRegister = 0 ∧
    (stepEvent st (.tick sendOk)).panicked = false := by
  cases hl : st.logged_in <;>
    simp [stepEvent, hl, OrderPlant.handle_command, isRegister,
      RithmicSenderApi.request_heartbeat, RithmicSenderApi.get_next_message_id]

/-! ## Claim C10 -/

/-- C10: dispatching a decoded inbound update unwraps the broadcast send, so
it avoids a panic exactly when at least one live subscriber exists; the
plant constructor drops the only initial receiver, so on a freshly
constructed plant an update arriving before any handle subscribes panics
the actor instead of being dropped. -/
theorem c10_update_unwrap_panics (st : OrderPlant) (r : RithmicResponse)
    (h : r.is_update = true) :
    ((st.handle_rithmic_message (.binary (.ok r))).panicked = false
      ↔ 0 < st.subscriber_count) ∧
    (st.handle_rithmic_message (.binary (.ok r))).trace = [PlantAction.broadcast r] ∧
    (∀ conn : RithmicConnectionInfo,
      ((RithmicOrderPlant.new conn).handle_rithmic_message
        (.binary (.ok r))).panicked = true) := by
  refine ⟨?_, ?_, ?_⟩
  · simp [OrderPlant.handle_rithmic_message, h, Nat.pos_iff_ne_zero]
  · simp [OrderPlant.handle_rithmic_message, h]
  · intro conn
    simp [OrderPlant.handle_rithmic_message, h, RithmicOrderPlant.new]

/-- Witness for C10: a fresh plant panics on an inbound update, and the same
state with one subscriber does not. -/
theorem c10_update_unwrap_panics_witness :
    ({ template_id := 351, is_update := true } : RithmicResponse).is_update = true ∧
    (((RithmicOrderPlant.new {}).handle_rithmic_message
        (.binary (.ok { template_id := 351, is_update := true }))).panicked = true ∧
      (({ RithmicOrderPlant.new {} with subscriber_count := 1
          } : OrderPlant).handle_rithmic_message
        (.binary (.ok { template_id := 351, is_update := true }))).panicked = false) := by
  refine ⟨rfl, ?_, ?_⟩
  · exact (c10_update_unwrap_panics (RithmicOrderPlant.new {})
      { template_id := 351, is_update := true } rfl).2.2 {}
  · exact ((c10_update_unwrap_panics
      ({ RithmicOrderPlant.new {} with subscriber_count := 1 })
      { template_id := 351, is_update := true } rfl).1).mpr (by decide)
